import Mathlib

/-!
Verification development for the pipenode probe agent.

The agent periodically fetches a node list from a coordinator, measures each
node's latency under a fixed 5000 ms timeout, reports each outcome, and sends
periodic heartbeats carrying geolocation data.  The embedding below models the
functions of `src/main.js` and `src/unnamed/part_000` as pure Lean functions:
every network interaction is represented by an explicit environment argument
(how the call settles) and by an event trace (`NetEvent`) recording which
network calls the code issues.  Timestamps are natural numbers (milliseconds);
`Date.now()` samples are environment inputs.
-/

namespace PipeNode

/-- A node descriptor as fetched from the coordinator: fields `node_id`, `ip`. -/
structure NodeInfo where
  node_id : String
  ip : String
deriving DecidableEq

/-- The JSON body built by `reportTestResult`:
`{ node_id, ip, latency, status }`. -/
structure TestPayload where
  node_id : String
  ip : String
  latency : Int
  status : String
deriving DecidableEq

/-- The payload construction in `reportTestResult` (identical in both source
files): `status: latency > 0 ? 'online' : 'offline'`. -/
def testPayload (node : NodeInfo) (latency : Int) : TestPayload :=
  ⟨node.node_id, node.ip, latency, if 0 < latency then "online" else "offline"⟩

/-- Failure modes of the probe request (`fetch`/`axios.get` against the node). -/
inductive ProbeError where
  | timeout
  | transportError
  | dnsFailure
  | connectionRefused
deriving DecidableEq

/-- The settled result of racing the probe request against the timeout timer. -/
inductive FetchOutcome where
  | resolved (t : Nat)
  | failed (e : ProbeError)
deriving DecidableEq

/-- `const timeout = 5000;` in `testNodeLatency`. -/
def probeTimeoutMs : Nat := 5000

/-- `Promise.race` of the probe request against the rejection timer that fires
at `start + 5000`.  The environment says how the request itself would settle:
`Except.ok t` means it would resolve at absolute time `t`; `Except.error e`
means it rejects with a transport-level error.  If the request would not
resolve before the timer fires, the timeout rejection wins the race. -/
def raceOutcome (start : Nat) (fetchResult : Except ProbeError Nat) : FetchOutcome :=
  match fetchResult with
  | Except.error e => FetchOutcome.failed e
  | Except.ok t =>
    if t < start + probeTimeoutMs then FetchOutcome.resolved t
    else FetchOutcome.failed ProbeError.timeout

/-- Return value of `testNodeLatency` (`src/unnamed/part_000`, lines 82-92;
`src/main.js` returns the same value): on a resolved race, `Date.now() - start`;
on any rejection the `catch` branch returns `-1`.  The function never
propagates an exception: every failure is mapped to the sentinel. -/
def testNodeLatency (start : Nat) (fetchResult : Except ProbeError Nat) : Int :=
  match raceOutcome start fetchResult with
  | FetchOutcome.resolved t => ((t - start : Nat) : Int)
  | FetchOutcome.failed _ => -1

/-- The geolocation payload fields used from `https://ipapi.co/json/`. -/
structure GeoData where
  ip : String
  city : String
  region : String
  country_name : String
deriving DecidableEq

/-- The value returned by `getGeoLocation`. -/
structure GeoInfo where
  ip : String
  location : String
deriving DecidableEq

/-- Environment for one geolocation lookup: a network error, or a response with
its `ok` flag and parsed JSON data. -/
abbrev GeoResp := Except Unit (Bool × GeoData)

/-- `getGeoLocation` (`src/main.js`, lines 106-119): a non-ok response throws
into the same `catch` as a network error; both yield the sentinel
`{ip: 'unknown', location: 'unknown'}`; success yields the looked-up ip and
the string `city, region, country_name`. -/
def getGeoLocation (resp : GeoResp) : GeoInfo :=
  match resp with
  | Except.error _ => ⟨"unknown", "unknown"⟩
  | Except.ok (ok, data) =>
    if ok then ⟨data.ip, data.city ++ ", " ++ data.region ++ ", " ++ data.country_name⟩
    else ⟨"unknown", "unknown"⟩

/-- Trace items: each constructor is one outbound network call the code issues
(the `reconnectSpawn` marker records the fire-and-forget `reconnect()` call). -/
inductive NetEvent where
  | nodesFetch
  | probeRequest (ip : String)
  | testSubmission (payload : TestPayload)
  | geoLookup
  | heartbeatPost (token : String) (geo : GeoInfo)
  | pointsFetch
  | reconnectSpawn
deriving DecidableEq

/-- Discriminator for result-submission events (`POST /api/test`). -/
def isTestSubmission : NetEvent → Bool
  | NetEvent.testSubmission _ => true
  | _ => false

/-- Discriminator for probe-request events. -/
def isProbeRequest : NetEvent → Bool
  | NetEvent.probeRequest _ => true
  | _ => false

/-- Discriminator for heartbeat-post events. -/
def isHeartbeatPost : NetEvent → Bool
  | NetEvent.heartbeatPost _ _ => true
  | _ => false

/-- How the coordinator answers a `POST /api/test` call. -/
inductive ReportOutcome where
  | ok
  | badStatus
  | netError
deriving DecidableEq

/-- Network calls issued by `reportTestResult` (`src/unnamed/part_000`,
lines 95-123; same gating in `src/main.js`, lines 38-43): with no token the
function returns before any network call; otherwise it makes exactly the one
`POST /api/test` with the payload, and any error of that call is caught and
only logged (`rep` decides only which log line runs). -/
def reportTestResult (token : Option String) (node : NodeInfo) (latency : Int)
    (_rep : ReportOutcome) : List NetEvent :=
  match token with
  | none => []
  | some _ => [NetEvent.testSubmission (testPayload node latency)]

/-- Per-node environment for one probe round: the node, the `Date.now()` sample
at probe dispatch, how the probe request settles, and how the report call
settles. -/
structure NodeRun where
  node : NodeInfo
  start : Nat
  fetchResult : Except ProbeError Nat
  report : ReportOutcome

/-- Network calls issued for one node inside the `for` loop of `runNodeTests`:
the probe request, then the report call. -/
def perNodeEvents (token : Option String) (r : NodeRun) : List NetEvent :=
  NetEvent.probeRequest r.node.ip ::
    reportTestResult token r.node (testNodeLatency r.start r.fetchResult) r.report

/-- The `for (const node of nodes)` loop of `runNodeTests`: sequential; since
`testNodeLatency` and `reportTestResult` never throw, every node is processed. -/
def roundEvents (token : Option String) : List NodeRun → List NetEvent
  | [] => []
  | r :: rs => perNodeEvents token r ++ roundEvents token rs

/-- `runNodeTests` (`src/unnamed/part_000`, lines 126-152): token gate, then
`GET /api/nodes`; on fetch failure the `catch` logs and the round ends with no
outcomes; otherwise the loop probes and reports every node.  Returns the per-node
outcomes `(node_id, latency)` and the full event trace of the round. -/
def runNodeTests (token : Option String) (nodesResp : Except Unit (List NodeRun)) :
    List (String × Int) × List NetEvent :=
  match token with
  | none => ([], [])
  | some _ =>
    match nodesResp with
    | Except.error _ => ([], [NetEvent.nodesFetch])
    | Except.ok runs =>
      (runs.map (fun r => (r.node.node_id, testNodeLatency r.start r.fetchResult)),
       NetEvent.nodesFetch :: roundEvents token runs)

/-- How the coordinator answers a heartbeat `POST`. -/
inductive HbPostOutcome where
  | ok
  | badStatus
  | netError
deriving DecidableEq

/-- `updatePoints` (`src/unnamed/part_000`, lines 155-173): token gate, then one
`GET /api/points`; errors are caught and logged. -/
def updatePoints (token : Option String) : List NetEvent :=
  match token with
  | none => []
  | some _ => [NetEvent.pointsFetch]

/-- Network calls issued by `sendHeartbeat` (`src/unnamed/part_000`,
lines 49-79): token gate before everything; then the geolocation lookup, the
heartbeat `POST`; on status 200 it also calls `updatePoints`; on a thrown error
the `catch` triggers the fire-and-forget `reconnect()`. -/
def sendHeartbeat (token : Option String) (geo : GeoResp) (post : HbPostOutcome) :
    List NetEvent :=
  match token with
  | none => []
  | some tok =>
    NetEvent.geoLookup :: NetEvent.heartbeatPost tok (getGeoLocation geo) ::
      (match post with
       | HbPostOutcome.ok => updatePoints token
       | HbPostOutcome.badStatus => []
       | HbPostOutcome.netError => [NetEvent.reconnectSpawn])

/-- The scheduled heartbeat runs of `src/unnamed/part_000`
(`schedule.scheduleJob` every 5 minutes): tick `k` runs `sendHeartbeat` with
the credential, geolocation response and post outcome of that tick. -/
def heartbeatTicks (tokenAt : Nat → Option String) (geoAt : Nat → GeoResp)
    (postAt : Nat → HbPostOutcome) : Nat → List (List NetEvent)
  | 0 => []
  | n + 1 =>
    heartbeatTicks tokenAt geoAt postAt n ++ [sendHeartbeat (tokenAt n) (geoAt n) (postAt n)]

end PipeNode

namespace PipeNode.MainJs

open PipeNode

/-- `testNodeLatency` of `src/main.js` (lines 19-35): same race and return value
as the shared `testNodeLatency`, but its `catch` branch additionally awaits
`reportTestResult(node, -1)` before returning `-1`.  Returns the latency value
and the trace of network calls the function itself issues. -/
def testNodeLatency (token : Option String) (node : NodeInfo) (start : Nat)
    (fetchResult : Except ProbeError Nat) (rep : ReportOutcome) : Int × List NetEvent :=
  match raceOutcome start fetchResult with
  | FetchOutcome.resolved t => (((t - start : Nat) : Int), [NetEvent.probeRequest node.ip])
  | FetchOutcome.failed _ =>
    (-1, NetEvent.probeRequest node.ip :: reportTestResult token node (-1) rep)

/-- One `setInterval` tick of the `src/main.js` heartbeat: geolocation lookup
then the heartbeat `POST` with the captured token; all errors are caught. -/
def heartbeatTickEvents (tok : String) (geo : GeoResp) : List NetEvent :=
  [NetEvent.geoLookup, NetEvent.heartbeatPost tok (getGeoLocation geo)]

/-- The first `ticks` firings of the interval armed by `startHeartbeat`, all
using the single token `tok` captured at startup. -/
def hbTicks (tok : String) (geoAt : Nat → GeoResp) : Nat → List NetEvent
  | 0 => []
  | n + 1 => hbTicks tok geoAt n ++ heartbeatTickEvents tok (geoAt n)

/-- `startHeartbeat` of `src/main.js` (lines 71-103): reads the token once, at
startup (`tokenAt 0`); if it is absent the function returns and the interval is
never armed, so no tick ever fires; otherwise every tick reuses the startup
token. -/
def startHeartbeat (tokenAt : Nat → Option String) (geoAt : Nat → GeoResp)
    (ticks : Nat) : List NetEvent :=
  match tokenAt 0 with
  | none => []
  | some tok => hbTicks tok geoAt ticks

end PipeNode.MainJs

namespace PipeNode

/-- Events of the heartbeat/reconnect cascade: a heartbeat `POST` attempt, and
the 30-second backoff sleep of `reconnect`. -/
inductive HbEvent where
  | hbPost
  | wait30
deriving DecidableEq, BEq

/-- The `while (attempts < maxAttempts)` loop of `reconnect`
(`src/unnamed/part_000`, lines 176-192), with `n` attempts remaining.  `hb`
runs one `await sendHeartbeat()`: it yields the events of that call and whether
its promise resolved.  If it resolved, the loop returns success at once; if it
rejected, the loop counts the attempt, sleeps 30 s and retries; after the cap
it gives up (`false`). -/
def reconnectLoop (hb : Unit → List HbEvent × Bool) : Nat → Bool × List HbEvent
  | 0 => (false, [])
  | n + 1 =>
    let r := hb ()
    if r.2 then (true, r.1)
    else
      let rest := reconnectLoop hb n
      (rest.1, r.1 ++ HbEvent.wait30 :: rest.2)

/-- `reconnect` (`src/unnamed/part_000`, lines 176-192): the retry loop with
`maxAttempts = 5`. -/
def reconnect (hb : Unit → List HbEvent × Bool) : Bool × List HbEvent :=
  reconnectLoop hb 5

/-- `sendHeartbeat` in the environment where every heartbeat `POST` fails with
a thrown error, explored to spawn depth `fuel`: the `POST` is attempted, the
`catch` fires the un-awaited `reconnect()` (whose events happen later), and the
promise still resolves (`true`) because the body is fully wrapped in
`try/catch`.  Spawned reconnects below the fuel bound are not explored. -/
def sendHeartbeatFail : Nat → List HbEvent × Bool
  | 0 => ([HbEvent.hbPost], true)
  | fuel + 1 => (HbEvent.hbPost :: (reconnect (fun _ => sendHeartbeatFail fuel)).2, true)

end PipeNode

namespace PipeNode.UptimeLedger

/-- Modelled from the spec: the repository source under `src/` contains no
UptimeLedger component — the spec's sections 3, 4.3 and 8 describe per-node
accumulators `{ uptime_ms, downtime_ms }`, both non-negative. -/
structure UptimeRecord where
  uptime_ms : Nat
  downtime_ms : Nat
deriving DecidableEq

/-- Modelled from the spec: the in-memory ledger, a keyed record
`node_id → { uptime_ms, downtime_ms }`. -/
abbrev Ledger := List (String × UptimeRecord)

/-- Modelled from the spec: `snapshot(node_id)` — the record for a node, a
zeroed record if the node was never seen. -/
def snapshot : Ledger → String → UptimeRecord
  | [], _ => ⟨0, 0⟩
  | (k, r) :: rest, nid => if k = nid then r else snapshot rest nid

/-- Modelled from the spec: add the round's interval to whichever bucket
matches the outcome's status. -/
def addTo (r : UptimeRecord) (status : String) (interval_ms : Nat) : UptimeRecord :=
  if status = "online" then ⟨r.uptime_ms + interval_ms, r.downtime_ms⟩
  else ⟨r.uptime_ms, r.downtime_ms + interval_ms⟩

/-- Modelled from the spec: `recordOutcome(node_id, status, interval_ms)`, the
only mutator — additive, creating a zeroed record on first sight of a node. -/
def recordOutcome (l : Ledger) (nid status : String) (interval_ms : Nat) : Ledger :=
  match l with
  | [] => [(nid, addTo ⟨0, 0⟩ status interval_ms)]
  | (k, r) :: rest =>
    if k = nid then (k, addTo r status interval_ms) :: rest
    else (k, r) :: recordOutcome rest nid status interval_ms

/-- Modelled from the spec: `save()` writes the full ledger to durable storage
as the keyed record `{ [node_id]: {uptime_ms, downtime_ms} }`. -/
def save (l : Ledger) : List (String × Nat × Nat) :=
  l.map (fun e => (e.1, e.2.uptime_ms, e.2.downtime_ms))

/-- Modelled from the spec: `load()` reads the persisted keyed record back into
the in-memory ledger. -/
def load (s : List (String × Nat × Nat)) : Ledger :=
  s.map (fun e => (e.1, ⟨e.2.1, e.2.2⟩))

/-- A process lifetime: the ledger after applying a sequence of
`recordOutcome` calls `(node_id, status, interval_ms)`. -/
def applyOps (l : Ledger) : List (String × String × Nat) → Ledger
  | [] => l
  | (nid, status, i) :: ops => applyOps (recordOutcome l nid status i) ops

end PipeNode.UptimeLedger

namespace PipeNode

/-- Claim C1: for every reported probe outcome the status field is derived
deterministically from the measured latency — `"online"` if and only if
`latency > 0`, and `"offline"` otherwise, including the sentinel `-1`. -/
theorem status_iff_latency_pos : ∀ (node : NodeInfo) (latency : Int),
    ((testPayload node latency).status = "online" ↔ 0 < latency) ∧
    ((testPayload node latency).status = "offline" ↔ ¬ 0 < latency) ∧
    (testPayload node (-1)).status = "offline" := by
  intro node latency
  refine ⟨?_, ?_, ?_⟩
  case _ => by_cases h : 0 < latency <;> simp [testPayload, h]
  case _ => by_cases h : 0 < latency <;> simp [testPayload, h]
  case _ =>
    have h : ¬ (0 : Int) < -1 := by decide
    simp [testPayload, h]

/-- Claim C2: for every node and any failure mode of the probe request —
timeout at the fixed `probeTimeoutMs = 5000` bound, or a transport-level
rejection (transport error, DNS failure, connection refusal) —
`testNodeLatency` returns the sentinel `-1` and never propagates the failure;
when the request resolves before the timeout it returns the non-negative
latency `t - start`. -/
theorem testNodeLatency_never_throws : ∀ (start : Nat) (fr : Except ProbeError Nat),
    (∀ e, fr = Except.error e → testNodeLatency start fr = -1) ∧
    (∀ t, fr = Except.ok t → start + probeTimeoutMs ≤ t → testNodeLatency start fr = -1) ∧
    (∀ t, fr = Except.ok t → t < start + probeTimeoutMs → start ≤ t →
      testNodeLatency start fr = (t : Int) - (start : Int) ∧
        0 ≤ testNodeLatency start fr) := by
  intro start fr
  refine ⟨?_, ?_, ?_⟩
  · rintro e rfl
    rfl
  · rintro t rfl hle
    simp [testNodeLatency, raceOutcome, Nat.not_lt.mpr hle]
  · rintro t rfl hlt hst
    constructor
    · simp [testNodeLatency, raceOutcome, hlt]
      omega
    · simp [testNodeLatency, raceOutcome, hlt]

/-- Witness for claim C2: a timed-out probe yields `-1`; a probe resolving 50 ms
after dispatch yields latency `50 ≥ 0`. -/
theorem testNodeLatency_never_throws_witness :
    testNodeLatency 100 (Except.error ProbeError.timeout) = -1 ∧
    testNodeLatency 100 (Except.ok 150) = 50 ∧
    0 ≤ testNodeLatency 100 (Except.ok 150) := by
  refine ⟨(testNodeLatency_never_throws 100 _).1 ProbeError.timeout rfl, ?_, ?_⟩
  · have h := ((testNodeLatency_never_throws 100 (Except.ok 150)).2.2 150 rfl
      (by decide) (by decide)).1
    exact h.trans (by decide)
  · exact ((testNodeLatency_never_throws 100 (Except.ok 150)).2.2 150 rfl
      (by decide) (by decide)).2

/-- Claim C10 (implicit): a probe that succeeds within the same millisecond as
dispatch measures latency exactly `0`, and the payload built for latency `0`
carries status `"offline"`, because the status test is strictly
`latency > 0`. -/
theorem zero_latency_status_offline : ∀ (node : NodeInfo) (start : Nat),
    testNodeLatency start (Except.ok start) = 0 ∧
    (testPayload node 0).status = "offline" := by
  intro node start
  constructor
  · simp [testNodeLatency, raceOutcome, probeTimeoutMs]
  · rfl

/-- Claim C4: when no credential is available, `reportTestResult` returns
without making any network call, and the same gating applies to the heartbeat
submission (`sendHeartbeat` of `src/unnamed/part_000`, and `startHeartbeat`
of `src/main.js`, which never even arms the interval): all their event traces
are empty. -/
theorem no_credential_no_network_call : ∀ (node : NodeInfo) (latency : Int)
    (rep : ReportOutcome) (geo : GeoResp) (post : HbPostOutcome)
    (geoAt : Nat → GeoResp) (ticks : Nat),
    reportTestResult none node latency rep = [] ∧
    sendHeartbeat none geo post = [] ∧
    MainJs.startHeartbeat (fun _ => none) geoAt ticks = [] := by
  intro node latency rep geo post geoAt ticks
  exact ⟨rfl, rfl, rfl⟩

/-- Claim C8: every failure of the geolocation lookup — network error, or a
non-ok response (which throws into the same catch) — yields exactly the
sentinel `⟨"unknown", "unknown"⟩`; a successful lookup yields the looked-up ip
and the location string `city, region, country`. -/
theorem getGeoLocation_sentinel_or_success : ∀ (r : GeoResp),
    (∀ e, r = Except.error e → getGeoLocation r = ⟨"unknown", "unknown"⟩) ∧
    (∀ d, r = Except.ok (false, d) → getGeoLocation r = ⟨"unknown", "unknown"⟩) ∧
    (∀ d, r = Except.ok (true, d) →
      getGeoLocation r = ⟨d.ip, d.city ++ ", " ++ d.region ++ ", " ++ d.country_name⟩) := by
  intro r
  refine ⟨?_, ?_, ?_⟩
  · rintro e rfl
    rfl
  · rintro d rfl
    rfl
  · rintro d rfl
    rfl

/-- Witness for claim C8: a failed lookup returns the sentinel; a successful
lookup of `1.2.3.4` in Paris returns the assembled location string. -/
theorem getGeoLocation_sentinel_or_success_witness :
    getGeoLocation (Except.error ()) = ⟨"unknown", "unknown"⟩ ∧
    getGeoLocation (Except.ok (true, ⟨"1.2.3.4", "Paris", "IDF", "France"⟩)) =
      ⟨"1.2.3.4", "Paris, IDF, France"⟩ := by
  constructor
  · exact (getGeoLocation_sentinel_or_success _).1 () rfl
  · exact ((getGeoLocation_sentinel_or_success _).2.2
      ⟨"1.2.3.4", "Paris", "IDF", "France"⟩ rfl).trans rfl

end PipeNode

namespace PipeNode

/-- Helper: with a token present, each node of the round contributes exactly one
result submission to the round's event trace, whatever its probe and report
outcomes. -/
theorem roundEvents_submission_count (tok : String) :
    ∀ runs : List NodeRun,
      ((roundEvents (some tok) runs).filter isTestSubmission).length = runs.length
  | [] => rfl
  | r :: rs => by
    simp [roundEvents, perNodeEvents, reportTestResult, List.filter_append,
      isTestSubmission, roundEvents_submission_count tok rs]

/-- Claim C3: in a probe round over a fetched list of `N` nodes, no single
node's probe failure or report failure prevents any other node from being
probed and submitted — for every environment (arbitrary per-node probe and
report outcomes) the round produces exactly `N` outcomes and exactly `N`
result submissions. -/
theorem runNodeTests_isolated_failures : ∀ (tok : String) (runs : List NodeRun),
    (runNodeTests (some tok) (Except.ok runs)).1.length = runs.length ∧
    ((runNodeTests (some tok) (Except.ok runs)).2.filter isTestSubmission).length
      = runs.length := by
  intro tok runs
  constructor
  · simp [runNodeTests]
  · simp [runNodeTests, isTestSubmission, roundEvents_submission_count tok runs]

end PipeNode

namespace PipeNode.UptimeLedger

/-- Helper: persisting the ledger and reloading it restores it exactly. -/
theorem load_save (l : Ledger) : load (save l) = l := by
  induction l with
  | nil => rfl
  | cons e t ih =>
    show (e.1, (⟨e.2.uptime_ms, e.2.downtime_ms⟩ : UptimeRecord)) :: load (save t) = e :: t
    rw [ih]

/-- Helper: `addTo` only ever adds to an accumulator. -/
theorem addTo_le (r : UptimeRecord) (status : String) (i : Nat) :
    r.uptime_ms ≤ (addTo r status i).uptime_ms ∧
    r.downtime_ms ≤ (addTo r status i).downtime_ms := by
  unfold addTo
  split <;> simp

/-- Helper: one `recordOutcome` never decreases any node's accumulators. -/
theorem snapshot_recordOutcome_le (l : Ledger) (nid status : String) (i : Nat)
    (k : String) :
    (snapshot l k).uptime_ms ≤ (snapshot (recordOutcome l nid status i) k).uptime_ms ∧
    (snapshot l k).downtime_ms ≤ (snapshot (recordOutcome l nid status i) k).downtime_ms := by
  induction l with
  | nil => by_cases h : nid = k <;> simp [recordOutcome, snapshot, h]
  | cons e t ih =>
    obtain ⟨a, r⟩ := e
    simp only [recordOutcome]
    by_cases han : a = nid
    · simp only [if_pos han, snapshot]
      by_cases hak : a = k
      · simp only [if_pos hak]
        exact addTo_le r status i
      · simp only [if_neg hak]
        exact ⟨le_refl _, le_refl _⟩
    · simp only [if_neg han, snapshot]
      by_cases hak : a = k
      · simp only [if_pos hak]
        exact ⟨le_refl _, le_refl _⟩
      · simp only [if_neg hak]
        exact ih

/-- Helper: accumulators never decrease over any sequence of `recordOutcome`
calls. -/
theorem snapshot_applyOps_le (ops : List (String × String × Nat)) :
    ∀ (l : Ledger) (k : String),
      (snapshot l k).uptime_ms ≤ (snapshot (applyOps l ops) k).uptime_ms ∧
      (snapshot l k).downtime_ms ≤ (snapshot (applyOps l ops) k).downtime_ms := by
  induction ops with
  | nil => intro l k; exact ⟨le_refl _, le_refl _⟩
  | cons op ops ih =>
    intro l k
    obtain ⟨nid, status, i⟩ := op
    have h1 := snapshot_recordOutcome_le l nid status i k
    have h2 := ih (recordOutcome l nid status i) k
    exact ⟨h1.1.trans h2.1, h1.2.trans h2.2⟩

/-- Claim C5: for any mapping of node ids to `{uptime_ms, downtime_ms}`,
saving the uptime ledger and loading it back yields a state equal to the
pre-save state (round-trip law), and both accumulators are monotonically
non-decreasing across the process lifetime, i.e. under any sequence of
`recordOutcome` updates. -/
theorem uptimeLedger_roundtrip_and_monotone : ∀ (l : Ledger)
    (ops : List (String × String × Nat)) (k : String),
    load (save l) = l ∧
    (snapshot l k).uptime_ms ≤ (snapshot (applyOps l ops) k).uptime_ms ∧
    (snapshot l k).downtime_ms ≤ (snapshot (applyOps l ops) k).downtime_ms := by
  intro l ops k
  exact ⟨load_save l, (snapshot_applyOps_le ops l k).1, (snapshot_applyOps_le ops l k).2⟩

end PipeNode.UptimeLedger

namespace PipeNode

/-- Counterexample to claim C6: in `src/main.js`, `testNodeLatency` itself
submits a result to the coordinator — for a concrete node whose probe times
out, the trace of the probe function alone contains one `POST /api/test`
submission (latency `-1`). -/
theorem testNodeLatency_self_report_cex :
    (MainJs.testNodeLatency (some "tok") ⟨"A", "10.0.0.1"⟩ 0
        (Except.error ProbeError.timeout) ReportOutcome.ok).2.filter isTestSubmission
      = [NetEvent.testSubmission (testPayload ⟨"A", "10.0.0.1"⟩ (-1))] := rfl

/-- Claim C6 as amended: `src/main.js`'s `testNodeLatency` issues exactly one
probe request and no retries; on a resolved probe it has no further effect,
but on a failed probe its `catch` branch itself submits the failure result
(latency `-1`) to the coordinator — when a credential is present — so
submission is not solely the round orchestrator's job, and a failing node is
reported twice per round. -/
theorem testNodeLatency_effects_amended : ∀ (token : Option String) (node : NodeInfo)
    (start : Nat) (fr : Except ProbeError Nat) (rep : ReportOutcome),
    (((MainJs.testNodeLatency token node start fr rep).2.filter isProbeRequest).length
       = 1) ∧
    (∀ t, raceOutcome start fr = FetchOutcome.resolved t →
      (MainJs.testNodeLatency token node start fr rep).2
        = [NetEvent.probeRequest node.ip]) ∧
    (∀ e tok, raceOutcome start fr = FetchOutcome.failed e → token = some tok →
      (MainJs.testNodeLatency token node start fr rep).2.filter isTestSubmission
        = [NetEvent.testSubmission (testPayload node (-1))]) ∧
    (∀ e, raceOutcome start fr = FetchOutcome.failed e → token = none →
      (MainJs.testNodeLatency token node start fr rep).2
        = [NetEvent.probeRequest node.ip]) := by
  intro token node start fr rep
  refine ⟨?_, ?_, ?_, ?_⟩
  · cases h : raceOutcome start fr with
    | resolved t => simp [MainJs.testNodeLatency, h, isProbeRequest]
    | failed e =>
      cases token <;>
        simp [MainJs.testNodeLatency, h, reportTestResult, isProbeRequest]
  · intro t h
    simp [MainJs.testNodeLatency, h]
  · rintro e tok h rfl
    simp [MainJs.testNodeLatency, h, reportTestResult, isTestSubmission]
  · rintro e h rfl
    simp [MainJs.testNodeLatency, h, reportTestResult]

/-- Witness for the amended claim C6: a refused connection with a credential
present yields the self-submitted `-1` result; a probe resolving 2 ms after
dispatch issues only the probe request. -/
theorem testNodeLatency_effects_amended_witness :
    (MainJs.testNodeLatency (some "t0") ⟨"B", "10.0.0.2"⟩ 5
        (Except.error ProbeError.connectionRefused) ReportOutcome.netError).2.filter
        isTestSubmission
      = [NetEvent.testSubmission (testPayload ⟨"B", "10.0.0.2"⟩ (-1))] ∧
    (MainJs.testNodeLatency (some "t0") ⟨"B", "10.0.0.2"⟩ 5 (Except.ok 7)
        ReportOutcome.ok).2 = [NetEvent.probeRequest "10.0.0.2"] := by
  constructor
  · exact (testNodeLatency_effects_amended (some "t0") ⟨"B", "10.0.0.2"⟩ 5
      (Except.error ProbeError.connectionRefused) ReportOutcome.netError).2.2.1
      ProbeError.connectionRefused "t0" rfl rfl
  · exact (testNodeLatency_effects_amended (some "t0") ⟨"B", "10.0.0.2"⟩ 5
      (Except.ok 7) ReportOutcome.ok).2.1 7 rfl

/-- Claim C7: evaluation of the reconnect machinery at the failing input where
every heartbeat `POST` fails.  Because `sendHeartbeat` catches its own error
and fire-and-forget spawns `reconnect()`, its promise always resolves, so the
retry loop returns success after a single attempt: exploring the spawned
cascade to depth 9 shows 10 heartbeat `POST` attempts — more than the claimed
cap of 5 — with zero 30-second backoff sleeps, and `reconnect` still reporting
success even though every `POST` failed. -/
theorem reconnect_unbounded_cascade :
    (sendHeartbeatFail 9).1.count HbEvent.hbPost = 10 ∧
    (sendHeartbeatFail 9).1.count HbEvent.wait30 = 0 ∧
    (sendHeartbeatFail 9).2 = true ∧
    (reconnect (fun _ => sendHeartbeatFail 0)).1 = true := by decide

/-- Helper: the scheduled heartbeat trace has one entry per tick. -/
theorem heartbeatTicks_length (tokenAt : Nat → Option String) (geoAt : Nat → GeoResp)
    (postAt : Nat → HbPostOutcome) :
    ∀ n, (heartbeatTicks tokenAt geoAt postAt n).length = n
  | 0 => rfl
  | n + 1 => by
    simp [heartbeatTicks, heartbeatTicks_length tokenAt geoAt postAt n]

/-- Helper: tick `k` of the scheduled heartbeat runs `sendHeartbeat` on the
environment of tick `k` alone. -/
theorem heartbeatTicks_getD (tokenAt : Nat → Option String) (geoAt : Nat → GeoResp)
    (postAt : Nat → HbPostOutcome) :
    ∀ n k, k < n →
      (heartbeatTicks tokenAt geoAt postAt n).getD k []
        = sendHeartbeat (tokenAt k) (geoAt k) (postAt k) := by
  intro n
  induction n with
  | zero => intro k hk; exact absurd hk (Nat.not_lt_zero k)
  | succ n ih =>
    intro k hk
    rcases Nat.lt_succ_iff_lt_or_eq.mp hk with h | h
    · rw [heartbeatTicks, List.getD_append _ _ _ _
        (by rw [heartbeatTicks_length]; exact h)]
      exact ih k h
    · subst h
      rw [heartbeatTicks, List.getD_append_right _ _ _ _
        (by rw [heartbeatTicks_length]), heartbeatTicks_length]
      simp

/-- Claim C9 as amended: in the `src/unnamed/part_000` scheduler, every
heartbeat tick resolves the credential at that tick: if it is absent the tick
no-ops (empty trace for that tick only), and if it is present the tick attempts
the heartbeat `POST` — independently of the credential's state at any other
tick.  (In `src/main.js`, by contrast, `startHeartbeat` resolves the credential
once at startup; see the counterexample.) -/
theorem heartbeat_per_tick_resolution : ∀ (tokenAt : Nat → Option String)
    (geoAt : Nat → GeoResp) (postAt : Nat → HbPostOutcome) (n k : Nat), k < n →
    ((heartbeatTicks tokenAt geoAt postAt n).getD k []
       = sendHeartbeat (tokenAt k) (geoAt k) (postAt k)) ∧
    (tokenAt k = none → (heartbeatTicks tokenAt geoAt postAt n).getD k [] = []) ∧
    (∀ t, tokenAt k = some t →
      NetEvent.heartbeatPost t (getGeoLocation (geoAt k))
        ∈ (heartbeatTicks tokenAt geoAt postAt n).getD k []) := by
  intro tokenAt geoAt postAt n k hk
  have hg := heartbeatTicks_getD tokenAt geoAt postAt n k hk
  refine ⟨hg, ?_, ?_⟩
  · intro h
    rw [hg]
    simp [sendHeartbeat, h]
  · intro t ht
    rw [hg]
    simp [sendHeartbeat, ht]

/-- Witness for the amended claim C9: with the credential absent at tick 0 but
present at tick 1, tick 0 of the scheduled heartbeat is a no-op while tick 1
attempts the heartbeat `POST`. -/
theorem heartbeat_per_tick_resolution_witness :
    ((heartbeatTicks (fun k => if k = 0 then none else some "tok")
        (fun _ => Except.error ()) (fun _ => HbPostOutcome.ok) 2).getD 0 [] = []) ∧
    (NetEvent.heartbeatPost "tok" (getGeoLocation (Except.error ()))
       ∈ (heartbeatTicks (fun k => if k = 0 then none else some "tok")
           (fun _ => Except.error ()) (fun _ => HbPostOutcome.ok) 2).getD 1 []) := by
  constructor
  · exact (heartbeat_per_tick_resolution (fun k => if k = 0 then none else some "tok")
      (fun _ => Except.error ()) (fun _ => HbPostOutcome.ok) 2 0 (by decide)).2.1 rfl
  · exact (heartbeat_per_tick_resolution (fun k => if k = 0 then none else some "tok")
      (fun _ => Except.error ()) (fun _ => HbPostOutcome.ok) 2 1 (by decide)).2.2
      "tok" rfl

/-- Counterexample to claim C9: in `src/main.js`, `startHeartbeat` resolves the
credential once, at startup — with the token absent at startup but present from
tick 1 on, no later run ever attempts a heartbeat: the whole trace over three
ticks is empty. -/
theorem startHeartbeat_token_once_cex :
    MainJs.startHeartbeat (fun k => if k = 0 then none else some "tok")
        (fun _ => Except.error ()) 3 = [] ∧
    (fun k => if k = 0 then none else some "tok") 2 = some "tok" :=
  ⟨rfl, rfl⟩

end PipeNode
